import Mathlib

/-!
Verification of `src/class_water_density.py` (class `WaterDensity`).

Shallow embedding conventions:
* Python/numpy double values are modelled by exact rationals `ℚ` (every IEEE
  double is a rational); `np.sqrt` is modelled by `Real.sqrt` on the casts, so
  the three square-root results are real numbers.
* The single exception path of each method (`raise ValueError` when the needed
  state is missing) is modelled by `Option`: `none` is the raised error.
  numpy division by zero does NOT raise (it yields inf/nan), so it is not an
  error path; rational division by zero (which yields 0) stands in for it and
  no theorem below depends on the value produced by a division by zero.
* The draw `np.random.uniform(-noise, noise, n_points)` is modelled by an
  explicit injected sequence `eps : ℕ → ℚ`; theorems about the generator take
  the bound `-noise ≤ eps i ≤ noise` as a hypothesis.
-/

/-- One row of the DataFrame built by `gen_fake_data`: columns
`M`, `sigma_M`, `V`, `sigma_V` (the spec's Measurement with y = M, x = V). -/
structure Measurement where
  M : ℚ
  sigma_M : ℚ
  V : ℚ
  sigma_V : ℚ
deriving DecidableEq, Repr

instance : Inhabited Measurement := ⟨⟨0, 0, 0, 0⟩⟩

/-- The DataFrame `self.df`: an ordered sequence of rows. -/
abbrev DataFrame := List Measurement

/-- The dictionary stored in `self.fit_results` by `calculate_fit`
(lines 93-103 of the source). -/
structure FitResult where
  M0 : ℚ
  V0 : ℚ
  rho : ℚ
  a : ℚ
  sigma_a : ℝ
  b : ℚ
  sigma_b : ℝ
  y_pred : List ℚ
  sigma_y : ℝ

/-- The object state set up by `WaterDensity.__init__`: the three reference
constants plus the two mutable fields `df` and `fit_results`, both
initially `None`. -/
structure WaterDensity where
  M0 : ℚ
  V0 : ℚ
  rho : ℚ
  df : Option DataFrame
  fit_results : Option FitResult

/-- `np.linspace(start, stop, num)` with endpoint=True: `num` evenly spaced
values from `start` to `stop` inclusive.  For `num = 1`, rational division by
zero makes the step term vanish, giving `[start]` exactly as numpy does. -/
def linspace (start stop : ℚ) (num : ℕ) : List ℚ :=
  (List.range num).map
    (fun i : ℕ => start + (stop - start) * (i : ℚ) / ((num : ℚ) - 1))

namespace WaterDensity

/-- `gen_fake_data` (source lines 26-52): builds evenly spaced volumes,
noisy masses `rho*V + (M0 - rho*V0) + eps i`, and the uncertainty columns
`sigma_M = M * err_M` (from the noisy M) and `sigma_V = V * err_V`; stores
the DataFrame in `self.df` and returns it.  The source performs no argument
validation whatsoever.  `noise` only enters through the modelled random draw
`eps` (see the file header); it is listed to keep the source signature. -/
def gen_fake_data (wd : WaterDensity) (n_points : ℕ)
    (V_min V_max err_M err_V noise : ℚ) (eps : ℕ → ℚ) :
    WaterDensity × DataFrame :=
  let V_values := linspace V_min V_max n_points
  let M_values := (List.range n_points).map
    (fun i => wd.rho * V_values.getD i 0 + (wd.M0 - wd.rho * wd.V0) + eps i)
  let df : DataFrame := (List.range n_points).map
    (fun i => { M := M_values.getD i 0,
                sigma_M := M_values.getD i 0 * err_M,
                V := V_values.getD i 0,
                sigma_V := V_values.getD i 0 * err_V })
  ({ wd with df := some df }, df)

/-- Source line 65: `V_values = self.df['V'].values`. -/
def V_values (df : DataFrame) : List ℚ := df.map (·.V)

/-- Source line 66: `M_values = self.df['M'].values`. -/
def M_values (df : DataFrame) : List ℚ := df.map (·.M)

/-- Source line 67: `N = len(V_values)`. -/
def N (df : DataFrame) : ℕ := (V_values df).length

/-- Source line 70: `sum_x = np.sum(V_values)`. -/
def sum_x (df : DataFrame) : ℚ := (V_values df).sum

/-- Source line 71: `sum_y = np.sum(M_values)`. -/
def sum_y (df : DataFrame) : ℚ := (M_values df).sum

/-- Source line 72: `sum_x2 = np.sum(V_values ** 2)`. -/
def sum_x2 (df : DataFrame) : ℚ := ((V_values df).map (fun x => x ^ 2)).sum

/-- Source line 73: `sum_xy = np.sum(V_values * M_values)`. -/
def sum_xy (df : DataFrame) : ℚ :=
  (List.zipWith (· * ·) (V_values df) (M_values df)).sum

/-- Source line 76: `D = N * sum_x2 - sum_x ** 2`. -/
def D (df : DataFrame) : ℚ := (N df : ℚ) * sum_x2 df - sum_x df ^ 2

/-- Source line 77: `a = (N * sum_xy - sum_x * sum_y) / D`. -/
def a (df : DataFrame) : ℚ :=
  ((N df : ℚ) * sum_xy df - sum_x df * sum_y df) / D df

/-- Source line 78: `b = (sum_y - a * sum_x) / N`. -/
def b (df : DataFrame) : ℚ := (sum_y df - a df * sum_x df) / (N df : ℚ)

/-- Source line 81: `y_pred = a * V_values + b` (numpy broadcasting:
elementwise over `V_values`). -/
def y_pred (df : DataFrame) : List ℚ :=
  (V_values df).map (fun x => a df * x + b df)

/-- Source line 84:
`sigma_y = np.sqrt(np.sum((M_values - y_pred) ** 2) / (N - 2))`. -/
noncomputable def sigma_y (df : DataFrame) : ℝ :=
  Real.sqrt
    ((((List.zipWith (fun m yp => (m - yp) ^ 2) (M_values df) (y_pred df)).sum : ℚ) : ℝ)
      / ((N df : ℝ) - 2))

/-- Source line 87: `Sxx = sum_x2 - (sum_x ** 2) / N` (the centered sum of
squares). -/
def Sxx (df : DataFrame) : ℚ := sum_x2 df - sum_x df ^ 2 / (N df : ℚ)

/-- Source line 88: `sigma_a = sigma_y / np.sqrt(Sxx)`. -/
noncomputable def sigma_a (df : DataFrame) : ℝ :=
  sigma_y df / Real.sqrt (Sxx df)

/-- Source line 89: `x_bar = sum_x / N`. -/
def x_bar (df : DataFrame) : ℚ := sum_x df / (N df : ℚ)

/-- Source line 90: `sigma_b = sigma_y * np.sqrt(1 / N + (x_bar ** 2) / Sxx)`. -/
noncomputable def sigma_b (df : DataFrame) : ℝ :=
  sigma_y df * Real.sqrt (1 / (N df : ℝ) + ((x_bar df : ℝ)) ^ 2 / (Sxx df : ℝ))

/-- The dictionary assembled at source lines 93-103. -/
noncomputable def fit_results_of (wd : WaterDensity) (df : DataFrame) :
    FitResult :=
  { M0 := wd.M0, V0 := wd.V0, rho := wd.rho,
    a := a df, sigma_a := sigma_a df,
    b := b df, sigma_b := sigma_b df,
    y_pred := y_pred df, sigma_y := sigma_y df }

/-- `calculate_fit` (source lines 54-104): raises (`none`) exactly when
`self.df is None`; otherwise computes the least-squares quantities above,
stores the result dictionary in `self.fit_results`, and returns it.
There is no point-count check and no degeneracy check. -/
noncomputable def calculate_fit (wd : WaterDensity) :
    Option (WaterDensity × FitResult) :=
  match wd.df with
  | none => none
  | some df =>
    let fr := fit_results_of wd df
    some ({ wd with fit_results := some fr }, fr)

end WaterDensity

section HelperLemmas

open WaterDensity

/-- Summing a mapped list is summing the image of each position. -/
theorem sum_map_eq_fin_sum {M : Type} [AddCommMonoid M] (l : List α) (f : α → M) :
    (l.map f).sum = ∑ i : Fin l.length, f (l.get i) := by
  rw [← Fin.sum_univ_get']
  simp [List.get_eq_getElem]

/-- Zipping two maps of the same list pointwise is a single map. -/
theorem zipWith_map_same (k : β → β → γ) (f g : α → β) (l : List α) :
    List.zipWith k (l.map f) (l.map g) = l.map (fun x => k (f x) (g x)) := by
  induction l with
  | nil => rfl
  | cons x xs ih => simp [ih]

/-- `getD` through a `map`, at an in-range index. -/
theorem getD_map_of_lt (l : List α) (f : α → β) {i : ℕ} (h : i < l.length)
    (d : β) (d' : α) : (l.map f).getD i d = f (l.getD i d') := by
  induction l generalizing i with
  | nil => simp at h
  | cons x xs ih =>
    cases i with
    | zero => rfl
    | succ j => exact ih (Nat.lt_of_succ_lt_succ h)

/-- `getD` and `get` agree at an in-range index. -/
theorem getD_eq_get_of_lt (l : List α) {i : ℕ} (h : i < l.length) (d : α) :
    l.getD i d = l.get ⟨i, h⟩ := by
  induction l generalizing i with
  | nil => simp at h
  | cons x xs ih =>
    cases i with
    | zero => rfl
    | succ j => exact ih (Nat.lt_of_succ_lt_succ h)

/-- The length of `linspace` is its point count. -/
theorem linspace_length (start stop : ℚ) (num : ℕ) :
    (linspace start stop num).length = num := by
  simp [linspace]

/-- The element at an in-range position of `linspace`. -/
theorem linspace_getD (start stop : ℚ) {num i : ℕ} (h : i < num) :
    (linspace start stop num).getD i 0 =
      start + (stop - start) * i / ((num : ℚ) - 1) := by
  have hl : i < (List.range num).length := by simpa using h
  unfold linspace
  rw [getD_map_of_lt _ _ hl _ 0, getD_eq_get_of_lt _ hl, List.get_eq_getElem,
    List.getElem_range]

/-- `N` is the number of rows. -/
theorem N_eq (df : DataFrame) : N df = df.length := by
  simp [N, V_values]

/-- `np.sum(V_values)` as an indexed sum. -/
theorem sum_x_eq (df : DataFrame) :
    sum_x df = ∑ i : Fin df.length, (df.get i).V := by
  rw [sum_x, V_values, sum_map_eq_fin_sum]

/-- `np.sum(M_values)` as an indexed sum. -/
theorem sum_y_eq (df : DataFrame) :
    sum_y df = ∑ i : Fin df.length, (df.get i).M := by
  rw [sum_y, M_values, sum_map_eq_fin_sum]

/-- `np.sum(V_values ** 2)` as an indexed sum. -/
theorem sum_x2_eq (df : DataFrame) :
    sum_x2 df = ∑ i : Fin df.length, (df.get i).V ^ 2 := by
  rw [sum_x2, V_values, List.map_map, sum_map_eq_fin_sum]
  rfl

/-- `np.sum(V_values * M_values)` as an indexed sum. -/
theorem sum_xy_eq (df : DataFrame) :
    sum_xy df = ∑ i : Fin df.length, (df.get i).V * (df.get i).M := by
  rw [sum_xy, V_values, M_values, zipWith_map_same, sum_map_eq_fin_sum]

/-- `y_pred` is the row-wise map `V ↦ a*V + b`. -/
theorem y_pred_eq_map (df : DataFrame) :
    y_pred df = df.map (fun m => a df * m.V + b df) := by
  rw [y_pred, V_values, List.map_map]
  rfl

/-- The residual sum of squares `np.sum((M_values - y_pred) ** 2)` as an
indexed sum. -/
theorem resid_sum_eq (df : DataFrame) :
    (List.zipWith (fun m yp => (m - yp) ^ 2) (M_values df) (y_pred df)).sum =
      ∑ i : Fin df.length,
        ((df.get i).M - (a df * (df.get i).V + b df)) ^ 2 := by
  rw [M_values, y_pred_eq_map, zipWith_map_same, sum_map_eq_fin_sum]

/-- `getD` on `List.range` at an in-range index. -/
theorem range_getD {n i : ℕ} (h : i < n) (d : ℕ) :
    (List.range n).getD i d = i := by
  have hr : i < (List.range n).length := by simpa using h
  rw [getD_eq_get_of_lt _ hr, List.get_eq_getElem, List.getElem_range]

/-- `gen_fake_data` always produces exactly `n_points` rows. -/
theorem gen_fake_data_length (wd : WaterDensity) (n : ℕ)
    (V_min V_max err_M err_V noise : ℚ) (eps : ℕ → ℚ) :
    (gen_fake_data wd n V_min V_max err_M err_V noise eps).2.length = n := by
  simp [gen_fake_data]

/-- The row produced by `gen_fake_data` at an in-range index, fully
evaluated. -/
theorem gen_fake_data_row (wd : WaterDensity) {n i : ℕ} (hi : i < n)
    (V_min V_max err_M err_V noise : ℚ) (eps : ℕ → ℚ) :
    (gen_fake_data wd n V_min V_max err_M err_V noise eps).2.getD i default =
      { M := wd.rho * (V_min + (V_max - V_min) * (i : ℚ) / ((n : ℚ) - 1)) +
               (wd.M0 - wd.rho * wd.V0) + eps i,
        sigma_M := (wd.rho *
               (V_min + (V_max - V_min) * (i : ℚ) / ((n : ℚ) - 1)) +
               (wd.M0 - wd.rho * wd.V0) + eps i) * err_M,
        V := V_min + (V_max - V_min) * (i : ℚ) / ((n : ℚ) - 1),
        sigma_V := (V_min + (V_max - V_min) * (i : ℚ) / ((n : ℚ) - 1)) *
               err_V } := by
  have hr : i < (List.range n).length := by simpa using hi
  simp only [gen_fake_data]
  rw [getD_map_of_lt _ _ hr default 0]
  simp only [range_getD hi]
  rw [getD_map_of_lt _ _ hr 0 0]
  simp only [range_getD hi, linspace_getD V_min V_max hi]

/-- When a DataFrame is present, `calculate_fit` succeeds, stores the result
dictionary, and returns it. -/
theorem calculate_fit_some (wd : WaterDensity) (df : DataFrame)
    (h : wd.df = some df) :
    calculate_fit wd =
      some ({ wd with fit_results := some (fit_results_of wd df) },
        fit_results_of wd df) := by
  unfold calculate_fit
  rw [h]

end HelperLemmas

section ConcreteInstances

open WaterDensity

/-- The spec's concrete scenario: three rows with `(V, M)` =
`(100, 400), (150, 450), (200, 500)` (exact line `M = V + 300`) and zero
uncertainties.  Field order is `M, sigma_M, V, sigma_V`. -/
def dfW : DataFrame :=
  [⟨400, 0, 100, 0⟩, ⟨450, 0, 150, 0⟩, ⟨500, 0, 200, 0⟩]

/-- A `WaterDensity` object in its default construction state holding `dfW`. -/
def wdW : WaterDensity :=
  { M0 := 300, V0 := 100, rho := 1, df := some dfW, fit_results := none }

/-- A freshly constructed object (`WaterDensity()` with default arguments):
both mutable fields are `None`. -/
def wd0 : WaterDensity :=
  { M0 := 300, V0 := 100, rho := 1, df := none, fit_results := none }

end ConcreteInstances

section Claims

open WaterDensity

/-- C1: for every Dataset of N points on which the fit succeeds (the stored
DataFrame is present), `calculate_fit` returns a result whose slope is
`a = (N*Sxy - Sx*Sy) / (N*Sxx - Sx^2)`, whose intercept is
`b = (Sy - a*Sx) / N`, and whose predictions satisfy
`y_pred[i] = a*x[i] + b` for every row `i`, preserving input order, with
`len(y_pred) = len(Dataset)`. -/
theorem C1_fit_formulas (wd : WaterDensity) (df : DataFrame)
    (h : wd.df = some df) :
    ∃ p : WaterDensity × FitResult, calculate_fit wd = some p ∧
      p.2.a = ((df.length : ℚ) *
            (∑ i : Fin df.length, (df.get i).V * (df.get i).M) -
          (∑ i : Fin df.length, (df.get i).V) *
            (∑ i : Fin df.length, (df.get i).M)) /
        ((df.length : ℚ) * (∑ i : Fin df.length, (df.get i).V ^ 2) -
          (∑ i : Fin df.length, (df.get i).V) ^ 2) ∧
      p.2.b = ((∑ i : Fin df.length, (df.get i).M) -
          p.2.a * (∑ i : Fin df.length, (df.get i).V)) / (df.length : ℚ) ∧
      p.2.y_pred.length = df.length ∧
      ∀ i : ℕ, i < df.length →
        p.2.y_pred.getD i 0 = p.2.a * (df.getD i default).V + p.2.b := by
  refine ⟨_, calculate_fit_some wd df h, ?_, ?_, ?_, ?_⟩ <;>
    simp only [fit_results_of]
  · unfold a D
    rw [sum_xy_eq, sum_x_eq, sum_y_eq, sum_x2_eq, N_eq]
  · unfold b
    rw [sum_y_eq, sum_x_eq, N_eq]
  · simp [y_pred, V_values]
  · intro i hi
    rw [y_pred_eq_map, getD_map_of_lt df _ hi 0 default]

/-- Witness for C1 at the spec's concrete three-point dataset. -/
theorem C1_fit_formulas_witness :
    wdW.df = some dfW ∧
    ∃ p : WaterDensity × FitResult, calculate_fit wdW = some p ∧
      p.2.a = ((dfW.length : ℚ) *
            (∑ i : Fin dfW.length, (dfW.get i).V * (dfW.get i).M) -
          (∑ i : Fin dfW.length, (dfW.get i).V) *
            (∑ i : Fin dfW.length, (dfW.get i).M)) /
        ((dfW.length : ℚ) * (∑ i : Fin dfW.length, (dfW.get i).V ^ 2) -
          (∑ i : Fin dfW.length, (dfW.get i).V) ^ 2) ∧
      p.2.b = ((∑ i : Fin dfW.length, (dfW.get i).M) -
          p.2.a * (∑ i : Fin dfW.length, (dfW.get i).V)) / (dfW.length : ℚ) ∧
      p.2.y_pred.length = dfW.length ∧
      ∀ i : ℕ, i < dfW.length →
        p.2.y_pred.getD i 0 = p.2.a * (dfW.getD i default).V + p.2.b :=
  ⟨rfl, C1_fit_formulas wdW dfW rfl⟩

/-- C2: for every Dataset on which the fit succeeds, the residual standard
error is `sigma_y_resid = sqrt(Σ(y[i]-y_pred[i])^2 / (N-2))`, the slope
uncertainty is `sigma_a = sigma_y_resid / sqrt(Sxx_centered)` with
`Sxx_centered = Sxx - Sx^2/N`, and the intercept uncertainty is
`sigma_b = sigma_y_resid * sqrt(1/N + x_bar^2/Sxx_centered)` with
`x_bar = Sx/N`. -/
theorem C2_fit_uncertainties (wd : WaterDensity) (df : DataFrame)
    (h : wd.df = some df) :
    ∃ p : WaterDensity × FitResult, calculate_fit wd = some p ∧
      p.2.sigma_y = Real.sqrt
        ((∑ i : Fin df.length,
            (((df.get i).M : ℝ) -
              (((p.2.a : ℚ) : ℝ) * ((df.get i).V : ℝ) + ((p.2.b : ℚ) : ℝ))) ^ 2) /
          ((df.length : ℝ) - 2)) ∧
      p.2.sigma_a = p.2.sigma_y / Real.sqrt
        ((∑ i : Fin df.length, ((df.get i).V : ℝ) ^ 2) -
          (∑ i : Fin df.length, ((df.get i).V : ℝ)) ^ 2 / (df.length : ℝ)) ∧
      p.2.sigma_b = p.2.sigma_y * Real.sqrt
        (1 / (df.length : ℝ) +
          ((∑ i : Fin df.length, ((df.get i).V : ℝ)) / (df.length : ℝ)) ^ 2 /
            ((∑ i : Fin df.length, ((df.get i).V : ℝ) ^ 2) -
              (∑ i : Fin df.length, ((df.get i).V : ℝ)) ^ 2 /
                (df.length : ℝ))) := by
  refine ⟨_, calculate_fit_some wd df h, ?_, ?_, ?_⟩ <;>
    simp only [fit_results_of]
  · unfold sigma_y
    rw [resid_sum_eq, N_eq]
    push_cast
    rfl
  · unfold sigma_a Sxx
    rw [sum_x2_eq, sum_x_eq, N_eq]
    push_cast
    rfl
  · unfold sigma_b Sxx x_bar
    rw [sum_x_eq, sum_x2_eq, N_eq]
    push_cast
    rfl

/-- Witness for C2 at the spec's concrete three-point dataset. -/
theorem C2_fit_uncertainties_witness :
    wdW.df = some dfW ∧
    ∃ p : WaterDensity × FitResult, calculate_fit wdW = some p ∧
      p.2.sigma_y = Real.sqrt
        ((∑ i : Fin dfW.length,
            (((dfW.get i).M : ℝ) -
              (((p.2.a : ℚ) : ℝ) * ((dfW.get i).V : ℝ) + ((p.2.b : ℚ) : ℝ))) ^ 2) /
          ((dfW.length : ℝ) - 2)) ∧
      p.2.sigma_a = p.2.sigma_y / Real.sqrt
        ((∑ i : Fin dfW.length, ((dfW.get i).V : ℝ) ^ 2) -
          (∑ i : Fin dfW.length, ((dfW.get i).V : ℝ)) ^ 2 / (dfW.length : ℝ)) ∧
      p.2.sigma_b = p.2.sigma_y * Real.sqrt
        (1 / (dfW.length : ℝ) +
          ((∑ i : Fin dfW.length, ((dfW.get i).V : ℝ)) / (dfW.length : ℝ)) ^ 2 /
            ((∑ i : Fin dfW.length, ((dfW.get i).V : ℝ) ^ 2) -
              (∑ i : Fin dfW.length, ((dfW.get i).V : ℝ)) ^ 2 /
                (dfW.length : ℝ))) :=
  ⟨rfl, C2_fit_uncertainties wdW dfW rfl⟩

/-- A two-row DataFrame: fewer than 3 points. -/
def dfC3 : DataFrame := [⟨400, 10, 100, 10⟩, ⟨450, 11, 150, 15⟩]

/-- An object holding the two-row DataFrame. -/
def wdC3 : WaterDensity :=
  { M0 := 300, V0 := 100, rho := 1, df := some dfC3, fit_results := none }

/-- Counterexample to C3: on a stored Dataset of only 2 points,
`calculate_fit` does NOT fail — it returns a FitResult (the source has no
point-count check; the division by `N - 2 = 0` is performed by numpy without
raising). -/
theorem C3_counterexample :
    dfC3.length < 3 ∧ (calculate_fit wdC3).isSome = true := by
  refine ⟨by decide, ?_⟩
  rw [calculate_fit_some wdC3 dfC3 rfl]
  rfl

/-- C3 amended: `calculate_fit` performs no point-count check; whenever a
Dataset is stored — in particular one with fewer than 3 points — it returns a
FitResult rather than raising InsufficientData.  (In the source the residual
divisor `N - 2` is then zero or negative and numpy produces non-finite sigma
values without raising.) -/
theorem C3_no_insufficient_data_check (wd : WaterDensity) (df : DataFrame)
    (h : wd.df = some df) (hlen : df.length < 3) :
    (calculate_fit wd).isSome = true := by
  rw [calculate_fit_some wd df h]
  rfl

/-- Witness for the amended C3 at the concrete two-point object. -/
theorem C3_no_insufficient_data_check_witness :
    wdC3.df = some dfC3 ∧ dfC3.length < 3 ∧
      (calculate_fit wdC3).isSome = true :=
  ⟨rfl, by decide, C3_no_insufficient_data_check wdC3 dfC3 rfl (by decide)⟩

/-- A three-row DataFrame whose `V` values are all identical, so that
`D = N*Sxx - Sx^2 = 0`. -/
def dfC4 : DataFrame := [⟨400, 10, 50, 5⟩, ⟨410, 10, 50, 5⟩, ⟨420, 10, 50, 5⟩]

/-- An object holding the degenerate DataFrame. -/
def wdC4 : WaterDensity :=
  { M0 := 300, V0 := 100, rho := 1, df := some dfC4, fit_results := none }

/-- Counterexample to C4: on a stored Dataset with all `x` identical
(`D = 0`), `calculate_fit` does NOT fail — it returns a FitResult (the source
has no degeneracy check; numpy performs the division by zero without
raising). -/
theorem C4_counterexample :
    D dfC4 = 0 ∧ (calculate_fit wdC4).isSome = true := by
  refine ⟨by norm_num [D, N, sum_x2, sum_x, V_values, dfC4], ?_⟩
  rw [calculate_fit_some wdC4 dfC4 rfl]
  rfl

/-- C4 amended: `calculate_fit` performs no degeneracy check; whenever a
Dataset is stored — in particular one with `D = N*Sxx - Sx^2 = 0` — it
performs the division anyway and returns a FitResult rather than raising
DegenerateInput. -/
theorem C4_no_degenerate_input_check (wd : WaterDensity) (df : DataFrame)
    (h : wd.df = some df) (hD : D df = 0) :
    (calculate_fit wd).isSome = true := by
  rw [calculate_fit_some wd df h]
  rfl

/-- Witness for the amended C4 at the concrete degenerate object. -/
theorem C4_no_degenerate_input_check_witness :
    wdC4.df = some dfC4 ∧ D dfC4 = 0 ∧
      (calculate_fit wdC4).isSome = true :=
  ⟨rfl, by norm_num [D, N, sum_x2, sum_x, V_values, dfC4],
    C4_no_degenerate_input_check wdC4 dfC4 rfl
      (by norm_num [D, N, sum_x2, sum_x, V_values, dfC4])⟩

/-- Counterexample to C6: a generation call with `n = 2 < 3` (all other
arguments as in the source's defaults) does NOT fail — it produces and
stores a Dataset of 2 points (the source validates nothing). -/
theorem C6_counterexample :
    (gen_fake_data wd0 2 110 200 (25 / 1000) (10 / 100) 5
        (fun _ => 0)).2.length = 2 ∧
    (gen_fake_data wd0 2 110 200 (25 / 1000) (10 / 100) 5
        (fun _ => 0)).1.df =
      some (gen_fake_data wd0 2 110 200 (25 / 1000) (10 / 100) 5
        (fun _ => 0)).2 :=
  ⟨rfl, rfl⟩

/-- C6 amended: `gen_fake_data` performs no argument validation; for every
call — in particular with `n < 3`, or `x_min ≥ x_max`, or a negative
`err_y`/`err_x`/`noise` — it returns and stores a Dataset of exactly `n`
points rather than raising InvalidArgument. -/
theorem C6_no_argument_validation (wd : WaterDensity) (n : ℕ)
    (V_min V_max err_M err_V noise : ℚ) (eps : ℕ → ℚ)
    (h : n < 3 ∨ V_max ≤ V_min ∨ err_M < 0 ∨ err_V < 0 ∨ noise < 0) :
    (gen_fake_data wd n V_min V_max err_M err_V noise eps).2.length = n ∧
    (gen_fake_data wd n V_min V_max err_M err_V noise eps).1.df =
      some (gen_fake_data wd n V_min V_max err_M err_V noise eps).2 := by
  refine ⟨?_, rfl⟩
  simp [gen_fake_data]

/-- Witness for the amended C6 at a concrete invalid call (`n = 2`). -/
theorem C6_no_argument_validation_witness :
    ((2 : ℕ) < 3 ∨ (200 : ℚ) ≤ 110 ∨ (25 / 1000 : ℚ) < 0 ∨
        (10 / 100 : ℚ) < 0 ∨ (5 : ℚ) < 0) ∧
    (gen_fake_data wd0 2 110 200 (25 / 1000) (10 / 100) 5
        (fun _ => 0)).2.length = 2 ∧
    (gen_fake_data wd0 2 110 200 (25 / 1000) (10 / 100) 5
        (fun _ => 0)).1.df =
      some (gen_fake_data wd0 2 110 200 (25 / 1000) (10 / 100) 5
        (fun _ => 0)).2 :=
  ⟨Or.inl (by decide),
    C6_no_argument_validation wd0 2 110 200 (25 / 1000) (10 / 100) 5
      (fun _ => 0) (Or.inl (by decide))⟩

/-- Counterexample to C7: `calculate_fit` is NOT free of observable side
effects — starting from a state with a Dataset present and
`fit_results = None`, after the call the object's `fit_results` field has
changed (the source stores the result dictionary in `self.fit_results`,
which `plot_regression` observes). -/
theorem C7_counterexample :
    (calculate_fit wdW).map (fun p => p.1.fit_results) ≠
      some wdW.fit_results := by
  rw [calculate_fit_some wdW dfW rfl]
  simp [wdW]

/-- C7 amended: the only observable change `calculate_fit` makes is storing
the returned FitResult in the object's `fit_results` field; the Dataset and
the reference constants are untouched, and the returned FitResult is a pure
function of the Dataset and the three construction constants, independent of
the object's mutable fields. -/
theorem C7_only_stores_fit_results (wd : WaterDensity) (df : DataFrame)
    (h : wd.df = some df) :
    calculate_fit wd =
      some ({ wd with fit_results := some (fit_results_of wd df) },
        fit_results_of wd df) ∧
    fit_results_of wd df =
      fit_results_of
        { M0 := wd.M0, V0 := wd.V0, rho := wd.rho,
          df := none, fit_results := none } df :=
  ⟨calculate_fit_some wd df h, rfl⟩

/-- Witness for the amended C7 at the concrete three-point object. -/
theorem C7_only_stores_fit_results_witness :
    wdW.df = some dfW ∧
    (calculate_fit wdW =
      some ({ wdW with fit_results := some (fit_results_of wdW dfW) },
        fit_results_of wdW dfW) ∧
    fit_results_of wdW dfW =
      fit_results_of
        { M0 := wdW.M0, V0 := wdW.V0, rho := wdW.rho,
          df := none, fit_results := none } dfW) :=
  ⟨rfl, C7_only_stores_fit_results wdW dfW rfl⟩

/-- C8: invoking `calculate_fit` twice in a row (the Dataset is unchanged by
the first call) returns identical FitResults, and the second call leaves the
state exactly where the first call left it. -/
theorem C8_fit_idempotent (wd : WaterDensity) (df : DataFrame)
    (h : wd.df = some df) :
    ∃ p : WaterDensity × FitResult, calculate_fit wd = some p ∧
      ∃ q : WaterDensity × FitResult, calculate_fit p.1 = some q ∧
        q.2 = p.2 ∧ q.1 = p.1 := by
  refine ⟨_, calculate_fit_some wd df h, ?_⟩
  have h1 : ({ wd with fit_results := some (fit_results_of wd df) } :
      WaterDensity).df = some df := h
  exact ⟨_, calculate_fit_some _ df h1, rfl, rfl⟩

/-- Witness for C8 at the concrete three-point object. -/
theorem C8_fit_idempotent_witness :
    wdW.df = some dfW ∧
    ∃ p : WaterDensity × FitResult, calculate_fit wdW = some p ∧
      ∃ q : WaterDensity × FitResult, calculate_fit p.1 = some q ∧
        q.2 = p.2 ∧ q.1 = p.1 :=
  ⟨rfl, C8_fit_idempotent wdW dfW rfl⟩

/-- C10: `calculate_fit` leaves the stored Dataset itself unchanged — the
post-state still holds exactly the input rows, and every row's `M`,
`sigma_M`, `V`, `sigma_V` values are identical before and after the fit,
even though the fit stores its result in the object's state. -/
theorem C10_dataset_unchanged (wd : WaterDensity) (df : DataFrame)
    (h : wd.df = some df) :
    ∃ p : WaterDensity × FitResult, calculate_fit wd = some p ∧
      p.1.df = some df ∧
      ∀ i : ℕ, i < df.length →
        ((p.1.df.getD []).getD i default).M = (df.getD i default).M ∧
        ((p.1.df.getD []).getD i default).sigma_M =
          (df.getD i default).sigma_M ∧
        ((p.1.df.getD []).getD i default).V = (df.getD i default).V ∧
        ((p.1.df.getD []).getD i default).sigma_V =
          (df.getD i default).sigma_V := by
  have hdf : ({ wd with fit_results := some (fit_results_of wd df) } :
      WaterDensity).df = some df := h
  refine ⟨_, calculate_fit_some wd df h, hdf, ?_⟩
  intro i hi
  rw [hdf]
  exact ⟨rfl, rfl, rfl, rfl⟩

/-- Witness for C10 at the concrete three-point object. -/
theorem C10_dataset_unchanged_witness :
    wdW.df = some dfW ∧
    ∃ p : WaterDensity × FitResult, calculate_fit wdW = some p ∧
      p.1.df = some dfW ∧
      ∀ i : ℕ, i < dfW.length →
        ((p.1.df.getD []).getD i default).M = (dfW.getD i default).M ∧
        ((p.1.df.getD []).getD i default).sigma_M =
          (dfW.getD i default).sigma_M ∧
        ((p.1.df.getD []).getD i default).V = (dfW.getD i default).V ∧
        ((p.1.df.getD []).getD i default).sigma_V =
          (dfW.getD i default).sigma_V :=
  ⟨rfl, C10_dataset_unchanged wdW dfW rfl⟩

/-- C5: for every valid generation call (`n ≥ 3`, `x_min < x_max`,
nonnegative `err_y`, `err_x`, `noise`) and any noise draw bounded by
`[-noise, +noise]`, the generator returns a Dataset of exactly `n` rows whose
`V` values are evenly spaced over `[V_min, V_max]` inclusive and
non-decreasing, whose `M` values equal `rho*V + (M0 - rho*V0)` plus the
bounded perturbation, and whose uncertainties are `sigma_M = M * err_M`
(from the noisy `M`) and `sigma_V = V * err_V`. -/
theorem C5_generator_correct (wd : WaterDensity) (n : ℕ)
    (V_min V_max err_M err_V noise : ℚ) (eps : ℕ → ℚ) (df : DataFrame)
    (hdf : df = (gen_fake_data wd n V_min V_max err_M err_V noise eps).2)
    (hn : 3 ≤ n) (hx : V_min < V_max)
    (herrM : 0 ≤ err_M) (herrV : 0 ≤ err_V) (hnoise : 0 ≤ noise)
    (heps : ∀ i : ℕ, i < n → -noise ≤ eps i ∧ eps i ≤ noise) :
    df.length = n ∧
    (∀ i : ℕ, i < n →
      (df.getD i default).V =
        V_min + (V_max - V_min) * (i : ℚ) / ((n : ℚ) - 1)) ∧
    (df.getD 0 default).V = V_min ∧
    (df.getD (n - 1) default).V = V_max ∧
    (∀ i : ℕ, i < n →
      V_min ≤ (df.getD i default).V ∧ (df.getD i default).V ≤ V_max) ∧
    (∀ i j : ℕ, i ≤ j → j < n →
      (df.getD i default).V ≤ (df.getD j default).V) ∧
    (∀ i : ℕ, i < n →
      (df.getD i default).M =
        wd.rho * (df.getD i default).V + (wd.M0 - wd.rho * wd.V0) + eps i ∧
      -noise ≤ eps i ∧ eps i ≤ noise) ∧
    (∀ i : ℕ, i < n →
      (df.getD i default).sigma_M = (df.getD i default).M * err_M ∧
      (df.getD i default).sigma_V = (df.getD i default).V * err_V) := by
  subst hdf
  have hn1 : (0 : ℚ) < (n : ℚ) - 1 := by
    have h3 : (3 : ℚ) ≤ (n : ℚ) := by exact_mod_cast hn
    linarith
  have hc : (0 : ℚ) ≤ V_max - V_min := by linarith
  have hV : ∀ i : ℕ, i < n →
      ((gen_fake_data wd n V_min V_max err_M err_V noise eps).2.getD i
          default).V =
        V_min + (V_max - V_min) * (i : ℚ) / ((n : ℚ) - 1) := by
    intro i hi
    rw [gen_fake_data_row wd hi V_min V_max err_M err_V noise eps]
  have hVlow : ∀ i : ℕ, i < n →
      V_min ≤ ((gen_fake_data wd n V_min V_max err_M err_V noise
          eps).2.getD i default).V := by
    intro i hi
    rw [hV i hi]
    have h0 : 0 ≤ (V_max - V_min) * (i : ℚ) / ((n : ℚ) - 1) :=
      div_nonneg (mul_nonneg hc (Nat.cast_nonneg i)) hn1.le
    linarith
  refine ⟨gen_fake_data_length wd n V_min V_max err_M err_V noise eps,
    hV, ?_, ?_, ?_, ?_, ?_, ?_⟩
  · rw [hV 0 (by omega)]
    simp
  · rw [hV (n - 1) (by omega)]
    have hcast : ((n - 1 : ℕ) : ℚ) = (n : ℚ) - 1 := by
      have h1 : 1 ≤ n := by omega
      push_cast [h1]
      ring
    rw [hcast, mul_div_assoc, div_self hn1.ne', mul_one]
    ring
  · intro i hi
    refine ⟨hVlow i hi, ?_⟩
    rw [hV i hi]
    have hin : (i : ℚ) ≤ (n : ℚ) - 1 := by
      have h1 : (i : ℚ) + 1 ≤ (n : ℚ) := by exact_mod_cast Nat.succ_le_of_lt hi
      linarith
    have h2 : (V_max - V_min) * (i : ℚ) / ((n : ℚ) - 1) ≤ V_max - V_min := by
      rw [div_le_iff₀ hn1]
      exact mul_le_mul_of_nonneg_left hin hc
    linarith
  · intro i j hij hj
    rw [hV i (lt_of_le_of_lt hij hj), hV j hj]
    have hcast : (i : ℚ) ≤ (j : ℚ) := by exact_mod_cast hij
    have h2 := mul_le_mul_of_nonneg_left hcast hc
    have h3 := (div_le_div_iff_of_pos_right hn1).2 h2
    linarith
  · intro i hi
    rw [gen_fake_data_row wd hi V_min V_max err_M err_V noise eps]
    exact ⟨rfl, (heps i hi).1, (heps i hi).2⟩
  · intro i hi
    rw [gen_fake_data_row wd hi V_min V_max err_M err_V noise eps]
    exact ⟨rfl, rfl⟩

/-- Witness for C5 at a concrete valid call (`n = 3` over `[0, 2]`, zero
errors and zero noise). -/
theorem C5_generator_correct_witness :
    (3 ≤ 3) ∧ ((0 : ℚ) < 2) ∧
    ((gen_fake_data wd0 3 0 2 0 0 0 (fun _ => 0)).2.length = 3 ∧
    (∀ i : ℕ, i < 3 →
      ((gen_fake_data wd0 3 0 2 0 0 0 (fun _ => 0)).2.getD i default).V =
        0 + (2 - 0) * (i : ℚ) / ((3 : ℚ) - 1)) ∧
    ((gen_fake_data wd0 3 0 2 0 0 0 (fun _ => 0)).2.getD 0 default).V = 0 ∧
    ((gen_fake_data wd0 3 0 2 0 0 0 (fun _ => 0)).2.getD (3 - 1)
        default).V = 2 ∧
    (∀ i : ℕ, i < 3 →
      0 ≤ ((gen_fake_data wd0 3 0 2 0 0 0 (fun _ => 0)).2.getD i
          default).V ∧
      ((gen_fake_data wd0 3 0 2 0 0 0 (fun _ => 0)).2.getD i
          default).V ≤ 2) ∧
    (∀ i j : ℕ, i ≤ j → j < 3 →
      ((gen_fake_data wd0 3 0 2 0 0 0 (fun _ => 0)).2.getD i default).V ≤
        ((gen_fake_data wd0 3 0 2 0 0 0 (fun _ => 0)).2.getD j default).V) ∧
    (∀ i : ℕ, i < 3 →
      ((gen_fake_data wd0 3 0 2 0 0 0 (fun _ => 0)).2.getD i default).M =
        wd0.rho *
            ((gen_fake_data wd0 3 0 2 0 0 0 (fun _ => 0)).2.getD i
              default).V +
          (wd0.M0 - wd0.rho * wd0.V0) + (fun _ => (0 : ℚ)) i ∧
      -(0 : ℚ) ≤ (fun _ => (0 : ℚ)) i ∧ (fun _ => (0 : ℚ)) i ≤ 0) ∧
    (∀ i : ℕ, i < 3 →
      ((gen_fake_data wd0 3 0 2 0 0 0 (fun _ => 0)).2.getD i
          default).sigma_M =
        ((gen_fake_data wd0 3 0 2 0 0 0 (fun _ => 0)).2.getD i
          default).M * 0 ∧
      ((gen_fake_data wd0 3 0 2 0 0 0 (fun _ => 0)).2.getD i
          default).sigma_V =
        ((gen_fake_data wd0 3 0 2 0 0 0 (fun _ => 0)).2.getD i
          default).V * 0)) :=
  ⟨by norm_num, by norm_num,
    C5_generator_correct wd0 3 0 2 0 0 0 (fun _ => 0) _ rfl
      (by norm_num) (by norm_num) (by norm_num) (by norm_num) (by norm_num)
      (fun i _ => ⟨by norm_num, by norm_num⟩)⟩

/-- Counterexample to C9: a generation call that is valid in the claim's
sense (`n = 3`, `x_min = -2 < x_max = -1`, `err_y = 0 ≥ 0`, `err_x = 1 ≥ 0`,
`noise = 0 ≥ 0`) produces a first row with `sigma_V = -2 < 0`: the source
sets `sigma_V = V * err_V`, which is negative for negative volumes. -/
theorem C9_counterexample :
    (3 ≤ 3) ∧ ((-2 : ℚ) < -1) ∧ ((0 : ℚ) ≤ 0) ∧ ((0 : ℚ) ≤ 1) ∧
    ((gen_fake_data wd0 3 (-2) (-1) 0 1 0 (fun _ => 0)).2.getD 0
        default).sigma_V < 0 := by
  refine ⟨by norm_num, by norm_num, le_refl 0, by norm_num, ?_⟩
  rw [gen_fake_data_row wd0 (by norm_num : (0 : ℕ) < 3) (-2) (-1) 0 1 0
    (fun _ => 0)]
  norm_num

/-- C9 amended: rows generated by a valid call have `sigma_M ≥ 0` and
`sigma_V ≥ 0` provided additionally the generated values themselves are
nonnegative: `0 ≤ V_min`, `0 ≤ rho`, and the minimal noisy mass
`rho*V_min + (M0 - rho*V0) - noise` is nonnegative.  (The source computes
`sigma_V = V * err_V` and `sigma_M = M * err_M`, which are negative whenever
`V` or the noisy `M` is negative.) -/
theorem C9_sigma_nonneg (wd : WaterDensity) (n : ℕ)
    (V_min V_max err_M err_V noise : ℚ) (eps : ℕ → ℚ) (df : DataFrame)
    (hdf : df = (gen_fake_data wd n V_min V_max err_M err_V noise eps).2)
    (hn : 3 ≤ n) (hx : V_min < V_max)
    (herrM : 0 ≤ err_M) (herrV : 0 ≤ err_V) (hnoise : 0 ≤ noise)
    (heps : ∀ i : ℕ, i < n → -noise ≤ eps i ∧ eps i ≤ noise)
    (hVmin : 0 ≤ V_min) (hrho : 0 ≤ wd.rho)
    (hM : 0 ≤ wd.rho * V_min + (wd.M0 - wd.rho * wd.V0) - noise) :
    ∀ i : ℕ, i < n →
      0 ≤ (df.getD i default).sigma_M ∧ 0 ≤ (df.getD i default).sigma_V := by
  subst hdf
  have hn1 : (0 : ℚ) < (n : ℚ) - 1 := by
    have h3 : (3 : ℚ) ≤ (n : ℚ) := by exact_mod_cast hn
    linarith
  have hc : (0 : ℚ) ≤ V_max - V_min := by linarith
  intro i hi
  rw [gen_fake_data_row wd hi V_min V_max err_M err_V noise eps]
  have hstep : 0 ≤ (V_max - V_min) * (i : ℚ) / ((n : ℚ) - 1) :=
    div_nonneg (mul_nonneg hc (Nat.cast_nonneg i)) hn1.le
  have hVi : V_min ≤ V_min + (V_max - V_min) * (i : ℚ) / ((n : ℚ) - 1) := by
    linarith
  have hVi0 : 0 ≤ V_min + (V_max - V_min) * (i : ℚ) / ((n : ℚ) - 1) := by
    linarith
  have hMi : 0 ≤ wd.rho *
      (V_min + (V_max - V_min) * (i : ℚ) / ((n : ℚ) - 1)) +
      (wd.M0 - wd.rho * wd.V0) + eps i := by
    have h1 := mul_le_mul_of_nonneg_left hVi hrho
    have h2 := (heps i hi).1
    linarith
  exact ⟨mul_nonneg hMi herrM, mul_nonneg hVi0 herrV⟩

/-- Witness for the amended C9 at a concrete valid nonnegative call
(`n = 3` over `[1, 2]`, unit error fractions, zero noise). -/
theorem C9_sigma_nonneg_witness :
    (3 ≤ 3) ∧ ((1 : ℚ) < 2) ∧ ((0 : ℚ) ≤ 1) ∧ (0 ≤ wd0.rho) ∧
    (0 ≤ wd0.rho * 1 + (wd0.M0 - wd0.rho * wd0.V0) - 0) ∧
    ∀ i : ℕ, i < 3 →
      0 ≤ ((gen_fake_data wd0 3 1 2 1 1 0 (fun _ => 0)).2.getD i
          default).sigma_M ∧
      0 ≤ ((gen_fake_data wd0 3 1 2 1 1 0 (fun _ => 0)).2.getD i
          default).sigma_V :=
  ⟨by norm_num, by norm_num, by norm_num, by norm_num [wd0],
    by norm_num [wd0],
    C9_sigma_nonneg wd0 3 1 2 1 1 0 (fun _ => 0) _ rfl
      (by norm_num) (by norm_num) (by norm_num) (by norm_num) (by norm_num)
      (fun i _ => ⟨by norm_num, by norm_num⟩)
      (by norm_num) (by norm_num [wd0]) (by norm_num [wd0])⟩

end Claims
